import Mathlib

/-!
Verification development for the Medinsight document-analysis backend
(`backend/app.py`, the Flask service).  The definitions below are a shallow
embedding of the pipeline: text extraction with fallback strategies, the
Gemini structured analyzers with their three-tier JSON recovery, the session
document context handled by the Flask routes, and the chat responder.

External collaborators (PyMuPDF, pdfplumber, python-docx, pandas, Tesseract,
PIL, the Gemini API, the filesystem) are modelled as oracles: values of
`Except String _` whose `.error` case stands for a raised Python exception.
Python's `json.loads` is modelled by an executable recursive-descent parser
(`json_loads`); JSON numbers are modelled as integers, which covers every
input the theorems below touch.
-/

namespace Medinsight

/-! ## Python string primitives -/

/-- Characters treated as whitespace by Python's `str.strip()` and by the
regular-expression class `\s` (ASCII range). -/
def isWsPy (c : Char) : Bool :=
  c = ' ' || c = '\t' || c = '\n' || c = '\r' || c = '\x0b' || c = '\x0c'

/-- Model of Python `str.strip()` on a character list. -/
def pyStripList (l : List Char) : List Char :=
  ((l.dropWhile isWsPy).reverse.dropWhile isWsPy).reverse

/-- Model of Python `str.strip()`. -/
def pyStrip (s : String) : String :=
  String.mk (pyStripList s.data)

/-- Model of the Python slice `s[:n]` (first `n` characters). -/
def pySlice (s : String) (n : Nat) : String :=
  String.mk (s.data.take n)

/-- Model of Python substring containment `needle in hay` on lists. -/
def infixCheckL (needle : List Char) : List Char → Bool
  | [] => needle.isEmpty
  | c :: rest => needle.isPrefixOf (c :: rest) || infixCheckL needle rest

/-- Model of Python substring containment `needle in hay`. -/
def containsSub (needle hay : String) : Bool :=
  infixCheckL needle.data hay.data

/-! ## JSON values and `json.loads` -/

/-- JSON values as decoded by Python's `json.loads`.  Objects keep their
fields in insertion order (Python dicts are insertion ordered); numbers are
modelled as integers. -/
inductive JValue where
  | null : JValue
  | bool : Bool → JValue
  | num : Int → JValue
  | str : String → JValue
  | arr : List JValue → JValue
  | obj : List (String × JValue) → JValue
  deriving BEq

/-- Insert a key/value pair the way a Python dict does: an existing key keeps
its position and gets the new value, a fresh key is appended. -/
def insertField : List (String × JValue) → String → JValue → List (String × JValue)
  | [], k, v => [(k, v)]
  | (k0, v0) :: rest, k, v =>
    if k0 = k then (k0, v) :: rest else (k0, v0) :: insertField rest k v

/-- Look a key up in a decoded JSON object (Python `dict.get`). -/
def lookupField : List (String × JValue) → String → Option JValue
  | [], _ => none
  | (k0, v0) :: rest, k => if k0 = k then some v0 else lookupField rest k

/-- JSON whitespace accepted between tokens by `json.loads`. -/
def isJsonWs (c : Char) : Bool :=
  c = ' ' || c = '\t' || c = '\n' || c = '\r'

/-- Value of a hexadecimal digit, if any. -/
def parseHexDigit (c : Char) : Option Nat :=
  if '0' ≤ c ∧ c ≤ '9' then some (c.toNat - '0'.toNat)
  else if 'a' ≤ c ∧ c ≤ 'f' then some (c.toNat - 'a'.toNat + 10)
  else if 'A' ≤ c ∧ c ≤ 'F' then some (c.toNat - 'A'.toNat + 10)
  else none

/-- Body of a JSON string literal (after the opening quote): handles the
escape sequences of `json.loads` and rejects raw control characters, as the
strict Python decoder does. -/
def parseStringBody (fuel : Nat) (acc : List Char) (s : List Char) :
    Option (String × List Char) :=
  match fuel with
  | 0 => none
  | fuel + 1 =>
    match s with
    | [] => none
    | c :: rest =>
      if c = '"' then some (String.mk acc.reverse, rest)
      else if c = '\\' then
        match rest with
        | [] => none
        | e :: rest2 =>
          if e = '"' then parseStringBody fuel ('"' :: acc) rest2
          else if e = '\\' then parseStringBody fuel ('\\' :: acc) rest2
          else if e = '/' then parseStringBody fuel ('/' :: acc) rest2
          else if e = 'b' then parseStringBody fuel ('\x08' :: acc) rest2
          else if e = 'f' then parseStringBody fuel ('\x0c' :: acc) rest2
          else if e = 'n' then parseStringBody fuel ('\n' :: acc) rest2
          else if e = 'r' then parseStringBody fuel ('\r' :: acc) rest2
          else if e = 't' then parseStringBody fuel ('\t' :: acc) rest2
          else if e = 'u' then
            match rest2 with
            | h1 :: h2 :: h3 :: h4 :: rest3 =>
              match parseHexDigit h1, parseHexDigit h2,
                    parseHexDigit h3, parseHexDigit h4 with
              | some a, some b, some c2, some d =>
                parseStringBody fuel
                  (Char.ofNat (((a * 16 + b) * 16 + c2) * 16 + d) :: acc) rest3
              | _, _, _, _ => none
            | _ => none
          else none
      else if c.toNat < 32 then none
      else parseStringBody fuel (c :: acc) rest

/-- Digits of a decimal literal. -/
def digitsVal (l : List Char) : Nat :=
  l.foldl (fun a c => a * 10 + (c.toNat - '0'.toNat)) 0

/-- Unsigned JSON integer literal (no leading zeros). -/
def parseNatLit (s : List Char) : Option (Nat × List Char) :=
  match s with
  | [] => none
  | c :: rest =>
    if c = '0' then
      match rest with
      | d :: _ => if d.isDigit then none else some (0, rest)
      | [] => some (0, rest)
    else if c.isDigit then
      some (digitsVal ((c :: rest).takeWhile Char.isDigit),
            (c :: rest).dropWhile Char.isDigit)
    else none

/-- Signed JSON integer literal. -/
def parseIntLit (s : List Char) : Option (Int × List Char) :=
  match s with
  | '-' :: rest => (parseNatLit rest).map (fun p => (-(p.1 : Int), p.2))
  | _ => (parseNatLit s).map (fun p => ((p.1 : Int), p.2))

mutual

/-- One JSON value, fuelled recursive descent. -/
def parseValue (fuel : Nat) (s : List Char) : Option (JValue × List Char) :=
  match fuel with
  | 0 => none
  | fuel + 1 =>
    match s.dropWhile isJsonWs with
    | [] => none
    | c :: rest =>
      if c = 'n' then
        match rest with
        | 'u' :: 'l' :: 'l' :: r => some (.null, r)
        | _ => none
      else if c = 't' then
        match rest with
        | 'r' :: 'u' :: 'e' :: r => some (.bool true, r)
        | _ => none
      else if c = 'f' then
        match rest with
        | 'a' :: 'l' :: 's' :: 'e' :: r => some (.bool false, r)
        | _ => none
      else if c = '"' then
        (parseStringBody fuel [] rest).map (fun p => (.str p.1, p.2))
      else if c = '{' then
        parseObjectFields fuel [] true rest
      else if c = '[' then
        parseArrayElems fuel [] true rest
      else
        (parseIntLit (c :: rest)).map (fun p => (.num p.1, p.2))

/-- Members of a JSON object, entered just after `{` or after a comma. -/
def parseObjectFields (fuel : Nat) (acc : List (String × JValue))
    (atStart : Bool) (s : List Char) : Option (JValue × List Char) :=
  match fuel with
  | 0 => none
  | fuel + 1 =>
    match s.dropWhile isJsonWs with
    | [] => none
    | c :: rest =>
      if c = '}' then
        if atStart ∧ acc.isEmpty then some (.obj acc, rest) else none
      else if c = '"' then
        match parseStringBody fuel [] rest with
        | none => none
        | some (key, r2) =>
          match r2.dropWhile isJsonWs with
          | ':' :: r4 =>
            match parseValue fuel r4 with
            | none => none
            | some (v, r5) =>
              let acc2 := insertField acc key v
              match r5.dropWhile isJsonWs with
              | ',' :: r7 => parseObjectFields fuel acc2 false r7
              | '}' :: r7 => some (.obj acc2, r7)
              | _ => none
          | _ => none
      else none

/-- Elements of a JSON array, entered just after `[` or after a comma. -/
def parseArrayElems (fuel : Nat) (acc : List JValue)
    (atStart : Bool) (s : List Char) : Option (JValue × List Char) :=
  match fuel with
  | 0 => none
  | fuel + 1 =>
    match s.dropWhile isJsonWs with
    | [] => none
    | c :: rest =>
      if c = ']' ∧ atStart then some (.arr acc.reverse, rest)
      else
        match parseValue fuel (c :: rest) with
        | none => none
        | some (v, r2) =>
          match r2.dropWhile isJsonWs with
          | ',' :: r3 => parseArrayElems fuel (v :: acc) false r3
          | ']' :: r3 => some (.arr (v :: acc).reverse, r3)
          | _ => none

end

/-- Model of Python's `json.loads`: parse one value, then require only
trailing whitespace (the decoder raises `Extra data` otherwise). -/
def json_loads (s : String) : Option JValue :=
  match parseValue (s.data.length + 1) s.data with
  | some (v, rest) => if (rest.dropWhile isJsonWs).isEmpty then some v else none
  | none => none

/-! ## The JSON-recovery regular expression

Both analyzers run
`re.search(r"```json\s*(\{.*?\})\s*```|(\{.*?\})", response_text, re.DOTALL)`.
We model this specific pattern directly: `re.search` scans start positions
left to right, tries the fenced alternative (capture group 1) before the bare
alternative (capture group 2) at each position, and the lazy `.*?` stops at
the first closing brace that lets the rest of the alternative match. -/

/-- The characters of the opening fence marker. -/
def fenceJsonMarker : List Char := "```json".data

/-- The characters of a plain fence. -/
def fenceMarker : List Char := "```".data

/-- Lazy body scan for the fenced alternative: consume characters (any
character, `re.DOTALL`) up to the first `}` that is followed by optional
whitespace and a closing fence; return the consumed characters including
that `}`. -/
def lazyScanFence : List Char → Option (List Char)
  | [] => none
  | c :: rest =>
    if c = '}' ∧ fenceMarker.isPrefixOf (rest.dropWhile isWsPy) then some ['}']
    else
      match lazyScanFence rest with
      | some tl => some (c :: tl)
      | none => none

/-- Lazy body scan for the bare alternative: consume up to the first `}`. -/
def lazyScanBrace : List Char → Option (List Char)
  | [] => none
  | c :: rest =>
    if c = '}' then some ['}']
    else
      match lazyScanBrace rest with
      | some tl => some (c :: tl)
      | none => none

/-- Strip an expected literal prefix, returning the remainder on success. -/
def dropPre (p s : List Char) : Option (List Char) :=
  match p, s with
  | [], rest => some rest
  | _ :: _, [] => none
  | a :: ps, c :: cs => if a == c then dropPre ps cs else none

/-- Attempt the fenced alternative at the current position; on success return
capture group 1. -/
def matchFencedAt (s : List Char) : Option (List Char) :=
  match dropPre fenceJsonMarker s with
  | none => none
  | some r =>
    match r.dropWhile isWsPy with
    | [] => none
    | c :: body =>
      if c = '{' then (lazyScanFence body).map (fun tl => '{' :: tl) else none

/-- Attempt the bare alternative at the current position; on success return
capture group 2. -/
def matchBraceAt (s : List Char) : Option (List Char) :=
  match s with
  | [] => none
  | c :: body =>
    if c = '{' then (lazyScanBrace body).map (fun tl => '{' :: tl) else none

/-- `re.search` over the whole text: first start position at which either
alternative matches wins; result is `(group 1, group 2)`. -/
def regexSearchJson : List Char → Option (Option String × Option String)
  | [] => none
  | c :: rest =>
    match matchFencedAt (c :: rest) with
    | some g1 => some (some (String.mk g1), none)
    | none =>
      match matchBraceAt (c :: rest) with
      | some g2 => some (none, some (String.mk g2))
      | none => regexSearchJson rest

/-- Python's `a or b` on optional strings (`json_match.group(2) or
json_match.group(1)`): `None` and the empty string are falsy. -/
def pyOrStr (a b : Option String) : Option String :=
  match a with
  | some s => if s = "" then b else some s
  | none => b

/-! ## The three-tier response parsing of the analyzers -/

/-- An error record `{"error": e}`. -/
def mkErr (e : String) : JValue :=
  .obj [("error", .str e)]

/-- An error record `{"error": e, "raw_text": r}`. -/
def mkErrRaw (e r : String) : JValue :=
  .obj [("error", .str e), ("raw_text", .str r)]

/-- Response parsing of `analyze_text_with_gemini` (lines 226-247): regex
search, then `json.loads` on the captured group, then direct `json.loads` on
the whole reply; every error record carries the reply in `raw_text`. -/
def parse_text_response (response_text : String) : JValue :=
  match regexSearchJson response_text.data with
  | some (g1, g2) =>
    match pyOrStr g2 g1 with
    | some json_string =>
      if json_string = "" then
        mkErrRaw "Regex matched but failed to extract JSON content." response_text
      else
        match json_loads json_string with
        | some structured_output => structured_output
        | none => mkErrRaw "AI response could not be parsed as JSON" response_text
    | none =>
      mkErrRaw "Regex matched but failed to extract JSON content." response_text
  | none =>
    match json_loads response_text with
    | some structured_output => structured_output
    | none => mkErrRaw "No valid JSON found in AI response" response_text

/-- Response parsing of `analyze_image_with_gemini` (lines 359-381): same
tiers, but every error record stores the fixed string
`"See logs for raw text"` in `raw_text` instead of the reply itself. -/
def parse_image_response (response_text : String) : JValue :=
  match regexSearchJson response_text.data with
  | some (g1, g2) =>
    match pyOrStr g2 g1 with
    | some json_string =>
      if json_string = "" then
        mkErrRaw "Regex matched but failed to extract JSON content." "See logs for raw text"
      else
        match json_loads json_string with
        | some structured_output => structured_output
        | none =>
          mkErrRaw "AI image response contained invalid JSON structure" "See logs for raw text"
    | none =>
      mkErrRaw "Regex matched but failed to extract JSON content." "See logs for raw text"
  | none =>
    match json_loads response_text with
    | some structured_output => structured_output
    | none => mkErrRaw "No valid JSON found in AI image response" "See logs for raw text"

/-- `parse_text_response` ends in a parse-failure error record: the regex
matched but the captured group was not valid JSON, or nothing matched and the
whole reply was not valid JSON.  This is the AIMalformed condition. -/
def textParseFailed (response_text : String) : Bool :=
  match regexSearchJson response_text.data with
  | some (g1, g2) =>
    match pyOrStr g2 g1 with
    | some json_string => json_string ≠ "" && (json_loads json_string).isNone
    | none => false
  | none => (json_loads response_text).isNone

/-- Same condition for the image pipeline. -/
def imageParseFailed (response_text : String) : Bool :=
  textParseFailed response_text

/-! ## Prompts -/

/-- Text of the structured-analysis prompt before the document excerpt
(lines 194-216 of the source; `\x7b`, `\x7d` and `\x27` denote the literal
braces and apostrophes of the Python string). -/
def text_prompt_before : String :=
  "\n        Analyze the following medical report text and extract the information into a structured JSON format.\n"
  ++ "        Be comprehensive but concise. If information for a field is not present, use `null` or an empty list `[]`.\n"
  ++ "        Focus *only* on the information present in the text provided. Do not infer or add external knowledge.\n\n"
  ++ "        JSON Format:\n        \x7b\n"
  ++ "            \"summary\": \"A concise summary of the main points of the medical report excerpt.\",\n"
  ++ "            \"diagnosis\": \"Primary or potential diagnosis mentioned, or null.\",\n"
  ++ "            \"key_findings\": [\"List key observations, test results, or findings mentioned.\", \"Finding 2\", \"...\"],\n"
  ++ "            \"causes\": [\"Possible causes mentioned for the condition, or null.\", \"Cause 2\", \"...\"],\n"
  ++ "            \"recommendations\": \"Specific medical recommendations or next steps mentioned, or null.\",\n"
  ++ "            \"precautions\": [\"Any precautions advised in the text.\", \"Precaution 2\", \"...\"],\n"
  ++ "            \"remedies\": [\"Mentioned treatments, therapies, or remedies.\", \"Remedy 2\", \"...\"],\n"
  ++ "            \"important_notes\": \"Other significant details or notes from the report.\",\n"
  ++ "            \"treatment_plan\": \"Outline of the treatment plan if described.\",\n"
  ++ "            \"lifestyle_changes\": [\"Specific lifestyle changes suggested.\", \"Change 2\", \"...\"],\n"
  ++ "            \"urgent_concerns\": \"Any explicitly mentioned urgent concerns or red flags, or null.\"\n"
  ++ "        \x7d\n\n"
  ++ "        Medical Report Text:\n        --- START TEXT ---\n        "

/-- Text of the structured-analysis prompt after the document excerpt
(lines 217-220). -/
def text_prompt_after : String :=
  "\n        --- END TEXT ---\n\n"
  ++ "        Provide *only* the JSON object as output, without any introductory text or markdown formatting.\n        "

/-- Input cap of `analyze_text_with_gemini` (line 187). -/
def max_chars_analysis : Nat := 100000

/-- The prompt `analyze_text_with_gemini` sends: the input text is hard-capped
at 100,000 characters (lines 187-190) and spliced into the f-string
(lines 194-220). -/
def gemini_text_prompt (text : String) : String :=
  let text := if text.length > max_chars_analysis then pySlice text max_chars_analysis else text
  text_prompt_before ++ text ++ text_prompt_after

/-- The constant prompt of `analyze_image_with_gemini` (lines 284-302). -/
def image_prompt : String :=
  "\n        YOUR **ONLY** OUTPUT MUST BE A VALID JSON OBJECT.\n"
  ++ "        DO NOT INCLUDE ANY INTRODUCTORY TEXT, EXPLANATIONS, NOTES, OR MARKDOWN FORMATTING (like ```json) BEFORE OR AFTER THE JSON OBJECT.\n\n"
  ++ "        The JSON object MUST conform EXACTLY to the following format. If you cannot determine a value for a particular field, set it to null or an empty list [] if it\x27s an array.\n\n"
  ++ "        JSON Format:\n        \x7b\n"
  ++ "            \"summary\": \"Provide a DETAILED and COMPREHENSIVE summary explaining the primary medical issue or abnormality visible in the image. Synthesize the key findings into a coherent description of the problem. Include observations about location, extent, appearance, and relationship to surrounding structures.\",\n"
  ++ "            \"diagnosis\": \"Potential diagnosis based *only* on the visual evidence in the image, if possible. Set to null if not determinable from the image alone.\",\n"
  ++ "            \"key_findings\": [\"Finding 1\", \"Finding 2\", \"List all significant visual observations\"],\n"
  ++ "            \"precautions\": [\"General precautions potentially relevant to findings, or null.\", \"Precaution 2\"],\n"
  ++ "            \"remedies\": [\"Potential remedies/treatments suggested by visual findings, or null.\", \"Remedy 2\"],\n"
  ++ "            \"urgent_concerns\": \"Any visually evident urgent concern or null.\",\n"
  ++ "            \"anatomical_structures\": [\"Structure 1\", \"List main visible anatomical structures\"]\n"
  ++ "        \x7d\n\n"
  ++ "        Analyze the provided medical image and generate ONLY the JSON output based on the fields above. Ensure the \x27summary\x27 field is thorough.\n        "

/-- Context cap of `chat_api` (line 512). -/
def max_context_chars : Nat := 50000

/-- Truncation of the session document text for the chat prompt
(lines 518-521): texts over the cap are cut to the cap and get the
truncation marker appended. -/
def chat_truncated_context (document_text : String) : String :=
  if document_text.length > max_context_chars then
    pySlice document_text max_context_chars ++ "\n... [Content Truncated]"
  else document_text

/-- The grounded chat prompt built when session context is present
(lines 525-540). -/
def chat_context_prompt (filename truncated_context user_message : String) : String :=
  "You are a helpful medical AI assistant. You have access to the content of a medical document named \x27"
  ++ filename ++ "\x27.\n\n"
  ++ "            **Instructions:**\n"
  ++ "            1. Answer the user\x27s query below.\n"
  ++ "            2. **Prioritize using the provided document context** if the query seems related to it. Clearly state if your answer comes from the document.\n"
  ++ "            3. If the query is *not* related to the document context, answer it using your general medical knowledge.\n"
  ++ "            4. If you are unsure or the document doesn\x27t contain the answer, state that clearly.\n"
  ++ "            5. Respond concisely and clearly. Use bullet points if appropriate.\n\n"
  ++ "            **Document Context (\x27" ++ filename ++ "\x27):**\n"
  ++ "            --- START CONTEXT ---\n            "
  ++ truncated_context
  ++ "\n            --- END CONTEXT ---\n\n"
  ++ "            **User Query:** " ++ user_message ++ "\n            "

/-- The general-knowledge chat prompt built when no context is present
(lines 544-549). -/
def chat_general_prompt (user_message : String) : String :=
  "You are a helpful medical AI assistant.\n"
  ++ "            Answer the following user query using your general medical knowledge.\n"
  ++ "            Respond concisely and clearly. Use bullet points if appropriate.\n\n"
  ++ "            **User Query:** " ++ user_message ++ "\n            "

/-! ## The structured analyzers -/

/-- Shape of a `generate_content` result as the text analyzer and the chat
route inspect it: a top-level `.text` attribute, else a non-empty
`.candidates` list (with a finish reason, optionally extractable part text,
and optional safety ratings), else neither. -/
inductive GeminiResponse where
  | withText : String → GeminiResponse
  | withCandidates : String → Option String → Option String → GeminiResponse
  | noTextNoCandidates : GeminiResponse

/-- `analyze_text_with_gemini` (lines 184-277).  The external capability is
the oracle `ai`, mapping the prompt to either a raised exception (`.error`,
absorbed by the outer `try`) or a response object. -/
def analyze_text_with_gemini (ai : String → Except String GeminiResponse)
    (text : String) : JValue :=
  match ai (gemini_text_prompt text) with
  | .error e => mkErr ("Unexpected AI text processing error: " ++ e)
  | .ok (.withText t) => parse_text_response (pyStrip t)
  | .ok (.withCandidates finish_reason part_text safety_ratings) =>
    if finish_reason ≠ "STOP" then
      .obj [("error", .str ("AI generation failed or was blocked. Reason: " ++ finish_reason)),
            ("safety_ratings", .str (safety_ratings.getD "N/A"))]
    else
      match part_text with
      | some _ =>
        mkErr "AI response structure unexpected, text found but parsing needs check."
      | none => mkErr "No text content received from Gemini for summary."
  | .ok .noTextNoCandidates =>
    mkErr "Unknown error or empty response from Gemini for summary."

/-- Shape of a `generate_content` result as the image analyzer inspects it
(lines 333-357): no candidates (with the prompt feedback either accessible,
giving an optional block reason and optional safety ratings, or itself
raising), or a candidate whose part text is extractable, or a candidate
whose part text is not. -/
inductive ImageApiResult where
  | noCandidates : Option (Option String × Option String) → ImageApiResult
  | candidateText : String → ImageApiResult
  | candidateNoText : String → Option String → ImageApiResult

/-- `analyze_image_with_gemini` (lines 280-390).  `decode` is the PIL
open/convert/re-encode step (lines 304-320); `api` is the `generate_content`
call (line 330).  The second component records whether `generate_content`
was invoked on this run. -/
def analyze_image_with_gemini (decode : Except String Unit)
    (api : Except String ImageApiResult) : JValue × Bool :=
  match decode with
  | .error img_err => (mkErr ("Failed to process image data: " ++ img_err), false)
  | .ok _ =>
    match api with
    | .error api_err => (mkErr ("Gemini API communication error: " ++ api_err), true)
    | .ok (.noCandidates feedback) =>
      match feedback with
      | some (block_reason, safety_ratings) =>
        (.obj [("error", .str ("Image analysis failed. Reason: "
                  ++ block_reason.getD "Unknown (No candidates)")),
               ("safety_ratings", match safety_ratings with
                  | some sr => .str sr
                  | none => .null)], true)
      | none => (mkErr "Image analysis failed (No candidates received).", true)
    | .ok (.candidateText t) => (parse_image_response (pyStrip t), true)
    | .ok (.candidateNoText finish_reason safety_ratings) =>
      if finish_reason ≠ "STOP" then
        (.obj [("error", .str ("AI generation stopped unexpectedly (" ++ finish_reason
                  ++ ") before text could be extracted.")),
               ("safety_ratings", .str (safety_ratings.getD "N/A"))], true)
      else (mkErr "Could not parse text content from Gemini response.", true)

/-! ## The text extractor -/

/-- Outcomes of the extraction strategy libraries for one file.  Each
`Except` value is one library call: `.ok t` means the library produced the
text `t`, `.error e` means it raised.  `ocrResult` is the return value of
`extract_text_from_image`, which catches all its own exceptions and so
always returns a string. -/
structure ExtractionOracle where
  fitzResult : Except String String
  plumberResult : Except String String
  docxResult : Except String String
  xlsxResult : Except String String
  ocrResult : String

/-- Observable events of one `extract_text` run (log statements and strategy
invocations). -/
inductive ExtractEvent where
  | fitzAttempt
  | plumberAttempt
  | docxAttempt
  | xlsxAttempt
  | ocrAttempt
  | imageBasedFlag
  | unsupportedType
  deriving DecidableEq

/-- The image extensions recognized by the backend (lines 159 and 446). -/
def imageExts : List String := [".png", ".jpg", ".jpeg", ".bmp", ".tiff"]

/-- Extension dispatch test `ext in [...]`. -/
def is_image_ext (ext : String) : Bool := imageExts.contains ext

/-- `extract_text` (lines 119-181).  The first component is what the function
does towards its caller: `.ok` a returned string, `.error` a propagated
exception.  PDF: PyMuPDF first, pdfplumber only when PyMuPDF raises, `""`
when both raise, plus a logged image-based flag when the stripped text has
fewer than 50 characters (no OCR fallback).  DOCX/XLSX: a raising strategy is
absorbed by the outer `try/except`, which returns `""`.  Images: delegate to
OCR, which never raises.  Unknown extension: return `""`.  The final result
is stripped (line 181). -/
def extract_text (o : ExtractionOracle) (ext : String) :
    Except String String × List ExtractEvent :=
  if ext = ".pdf" then
    let (extracted_text, ev) :=
      match o.fitzResult with
      | .ok t => (t, [ExtractEvent.fitzAttempt])
      | .error _ =>
        match o.plumberResult with
        | .ok t => (t, [ExtractEvent.fitzAttempt, ExtractEvent.plumberAttempt])
        | .error _ => ("", [ExtractEvent.fitzAttempt, ExtractEvent.plumberAttempt])
    let ev := if (pyStrip extracted_text).length < 50
      then ev ++ [ExtractEvent.imageBasedFlag] else ev
    (.ok (pyStrip extracted_text), ev)
  else if ext = ".docx" then
    match o.docxResult with
    | .ok t => (.ok (pyStrip t), [ExtractEvent.docxAttempt])
    | .error _ => (.ok "", [ExtractEvent.docxAttempt])
  else if ext = ".xlsx" then
    match o.xlsxResult with
    | .ok t => (.ok (pyStrip t), [ExtractEvent.xlsxAttempt])
    | .error _ => (.ok "", [ExtractEvent.xlsxAttempt])
  else if is_image_ext ext then
    (.ok (pyStrip o.ocrResult), [ExtractEvent.ocrAttempt])
  else
    (.ok "", [ExtractEvent.unsupportedType])

/-! ## Session and routes

The Flask session holds at most the keys `last_analyzed_text` and
`last_analyzed_filename`; the routes only ever set or pop them together.
Route results are `(status, body)`; `analyze_report` may also raise an
uncaught `TypeError` on line 488/490 when the analysis result is not a
container (`"error" in analysis_result` on an int), modelled as `none` — in
that case Flask produces a generic 500 without finalizing the request, so
the session cookie, and with it the session, keeps its pre-request value. -/

/-- The per-session document context slot. -/
structure Session where
  last_analyzed_text : Option String
  last_analyzed_filename : Option String
  deriving DecidableEq

/-- Session with both context keys popped. -/
def clearedSession : Session := ⟨none, none⟩

/-- `upload_file` (lines 398-429).  `hasFilePart` models
`"file" in request.files`; `save` models `file.save` (lines 416-417).  The
context is popped only after a successful save (lines 421-422). -/
def upload_file (hasFilePart : Bool) (filename : String)
    (save : Except String Unit) (s : Session) : (Nat × JValue) × Session :=
  if ¬ hasFilePart then ((400, mkErr "No file part"), s)
  else if filename = "" then ((400, mkErr "No selected file"), s)
  else
    match save with
    | .ok _ =>
      ((200, .obj [("message", .str "File uploaded successfully"),
                   ("file_path", .str filename), ("filename", .str filename)]),
       clearedSession)
    | .error e => ((500, mkErr ("Failed to save file: " ++ e)), s)

/-- `data.get("filename")` fallback of lines 442-443: a missing or empty
filename falls back to the basename of the path. -/
def resolved_filename (filenameParam : Option String) (basename : String) : String :=
  match filenameParam with
  | some f => if f = "" then basename else f
  | none => basename

/-- Lines 488-496: status selection for the analysis result.
`"error" in analysis_result` is Python membership: key lookup on a dict,
substring test on a string, element test on a list, and a `TypeError`
(`none`) on anything else; when the error value is not a string, the
substring tests on line 490 raise as well. -/
def route_analysis_response (analysis_result : JValue) : Option (Nat × JValue) :=
  match analysis_result with
  | .obj fields =>
    if fields.any (fun kv => kv.1 = "error") then
      match lookupField fields "error" with
      | some (.str e) =>
        some ((if containsSub "AI" e || containsSub "Gemini" e then 500 else 400),
              analysis_result)
      | _ => none
    else some (200, analysis_result)
  | .str s =>
    if containsSub "error" s then none else some (200, analysis_result)
  | .arr xs =>
    if xs.contains (.str "error") then none else some (200, analysis_result)
  | _ => none

/-- `analyze_report` (lines 432-496).  Inputs: the request fields
(`file_path`, `filename`), whether the path exists on disk, the basename of
the path, its extension, the extraction oracle, the image-read oracle
(lines 459-460), the PIL decode and Gemini oracles for images, and the
Gemini oracle for text.  The context keys are popped only after the
file-existence check (lines 439-453); the non-image branch stores the
extracted text and filename (lines 479-480) before the AI call. -/
def analyze_report (file_path : Option String) (fileExists : Bool)
    (filenameParam : Option String) (basename : String) (ext : String)
    (o : ExtractionOracle) (imageRead : Except String Unit)
    (decode : Except String Unit) (imgApi : Except String ImageApiResult)
    (aiText : String → Except String GeminiResponse)
    (s : Session) : Option (Nat × JValue) × Session :=
  match file_path with
  | none => (some (400, mkErr "File not found on server"), s)
  | some p =>
    if p = "" ∨ ¬ fileExists then (some (400, mkErr "File not found on server"), s)
    else
      let filename := resolved_filename filenameParam basename
      let cleared := clearedSession
      if is_image_ext ext then
        match imageRead with
        | .error e => (some (500, mkErr ("Image analysis failed: " ++ e)), cleared)
        | .ok _ =>
          let analysis_result := (analyze_image_with_gemini decode imgApi).1
          match route_analysis_response analysis_result with
          | some resp => (some resp, cleared)
          | none => (none, s)
      else
        match (extract_text o ext).1 with
        | .error _ => (none, s)
        | .ok extracted_text =>
          if extracted_text = "" ∨ pyStrip extracted_text = "" then
            (some (400, mkErr "No readable text could be extracted from the document."),
             cleared)
          else
            let stored : Session := ⟨some extracted_text, some filename⟩
            let analysis_result := analyze_text_with_gemini aiText extracted_text
            match route_analysis_response analysis_result with
            | some resp => (some resp, stored)
            | none => (none, s)

/-- Selection of the chat prompt (lines 515-549): the grounded prompt when
both context keys are present and truthy (non-`None` and non-empty), the
general prompt otherwise. -/
def chat_prompt_of (s : Session) (m : String) : String :=
  match s.last_analyzed_text, s.last_analyzed_filename with
  | some document_text, some filename =>
    if document_text ≠ "" ∧ filename ≠ "" then
      chat_context_prompt filename (chat_truncated_context document_text) m
    else chat_general_prompt m
  | _, _ => chat_general_prompt m

/-- `chat_api` (lines 499-583).  Returns the route result, the (unchanged)
session, and the prompt sent to the capability, if any. -/
def chat_api (ai : String → Except String GeminiResponse)
    (message : Option String) (s : Session) :
    (Nat × JValue) × Session × Option String :=
  match message with
  | none => ((400, mkErr "No message provided"), s, none)
  | some m =>
    if m = "" then ((400, mkErr "No message provided"), s, none)
    else
      let prompt := chat_prompt_of s m
      match ai prompt with
      | .error e =>
        ((500, mkErr ("An unexpected error occurred during chat: " ++ e)), s, some prompt)
      | .ok (.withText t) =>
        ((200, .obj [("response", .str t)]), s, some prompt)
      | .ok (.withCandidates finish_reason part_text safety_ratings) =>
        if finish_reason ≠ "STOP" then
          ((500, .obj [("error", .str ("Chat generation failed or was blocked. Reason: "
                          ++ finish_reason)),
                       ("safety_ratings", .str (safety_ratings.getD "N/A"))]), s, some prompt)
        else
          match part_text with
          | some t => ((200, .obj [("response", .str (pyStrip t))]), s, some prompt)
          | none => ((500, mkErr "No text content received from Gemini for chat."), s, some prompt)
      | .ok .noTextNoCandidates =>
        ((500, mkErr "No text content received from Gemini for chat."), s, some prompt)

/-- Session states reachable from a fresh session through any sequence of
the three routes, with arbitrary request data and oracle behaviour. -/
inductive ReachableSession : Session → Prop where
  | init : ReachableSession clearedSession
  | step_upload (hasFilePart : Bool) (filename : String) (save : Except String Unit)
      (s : Session) : ReachableSession s →
      ReachableSession (upload_file hasFilePart filename save s).2
  | step_analyze (file_path : Option String) (fileExists : Bool)
      (filenameParam : Option String) (basename ext : String)
      (o : ExtractionOracle) (imageRead decode : Except String Unit)
      (imgApi : Except String ImageApiResult)
      (aiText : String → Except String GeminiResponse) (s : Session) :
      ReachableSession s →
      ReachableSession (analyze_report file_path fileExists filenameParam basename ext
        o imageRead decode imgApi aiText s).2
  | step_chat (ai : String → Except String GeminiResponse) (message : Option String)
      (s : Session) : ReachableSession s →
      ReachableSession (chat_api ai message s).2.1

/-- A decoded JSON object carrying an `error` key — the explicit error
records of the analyzers. -/
def isErrRecord (v : JValue) : Prop :=
  ∃ fields, v = .obj fields ∧ lookupField fields "error" ≠ none

/-- Example oracle: every extraction strategy raises. -/
def oracleAllFail : ExtractionOracle :=
  ⟨.error "fitz boom", .error "plumber boom", .error "docx boom", .error "xlsx boom", ""⟩

/-- Example oracle: PyMuPDF succeeds with a short clinical note. -/
def oracleFitzOk : ExtractionOracle :=
  ⟨.ok "Patient has mild hypertension.", .error "plumber boom",
   .error "docx boom", .error "xlsx boom", ""⟩

/-- Example session holding a previously analyzed document. -/
def staleSession : Session := ⟨some "old report text", some "old.pdf"⟩

/-- The backtick character, written numerically. -/
def btick : Char := Char.ofNat 96

/-! # Theorems -/

/-! ## Helper lemmas -/

theorem data_append (a b : String) : (a ++ b).data = a.data ++ b.data := rfl

theorem mk_data (s : String) : String.mk s.data = s := rfl

/-- Each tier of the text pipeline either returns a value `json.loads`
produced, or an error record whose `raw_text` is the reply itself. -/
theorem parse_text_cases (rt : String) :
    (∃ src, json_loads src = some (parse_text_response rt)) ∨
    (∃ e, parse_text_response rt = mkErrRaw e rt) := by
  unfold parse_text_response
  split
  · split
    · split
      · exact Or.inr ⟨_, rfl⟩
      · split
        · rename_i hv
          exact Or.inl ⟨_, by rw [hv]⟩
        · exact Or.inr ⟨_, rfl⟩
    · exact Or.inr ⟨_, rfl⟩
  · split
    · rename_i hv
      exact Or.inl ⟨rt, by rw [hv]⟩
    · exact Or.inr ⟨_, rfl⟩

/-- Each tier of the image pipeline either returns a value `json.loads`
produced, or an error record whose `raw_text` is the fixed placeholder. -/
theorem parse_image_cases (rt : String) :
    (∃ src, json_loads src = some (parse_image_response rt)) ∨
    (∃ e, parse_image_response rt = mkErrRaw e "See logs for raw text") := by
  unfold parse_image_response
  split
  · split
    · split
      · exact Or.inr ⟨_, rfl⟩
      · split
        · rename_i hv
          exact Or.inl ⟨_, by rw [hv]⟩
        · exact Or.inr ⟨_, rfl⟩
    · exact Or.inr ⟨_, rfl⟩
  · split
    · rename_i hv
      exact Or.inl ⟨rt, by rw [hv]⟩
    · exact Or.inr ⟨_, rfl⟩

/-- When the parse-failure condition holds, the text pipeline returns one of
its two reachable malformed-JSON error records (raw text preserved). -/
theorem textParseFailed_err (rt : String) (h : textParseFailed rt = true) :
    parse_text_response rt = mkErrRaw "AI response could not be parsed as JSON" rt ∨
    parse_text_response rt = mkErrRaw "No valid JSON found in AI response" rt := by
  unfold textParseFailed at h
  unfold parse_text_response
  rcases hre : regexSearchJson rt.data with _ | ⟨g1, g2⟩
  · simp only [hre] at h ⊢
    rw [Option.isNone_iff_eq_none] at h
    rw [h]
    exact Or.inr rfl
  · simp only [hre] at h ⊢
    rcases hjs : pyOrStr g2 g1 with _ | js
    · rw [hjs] at h
      exact absurd h (by simp)
    · simp only [hjs] at h ⊢
      simp only [Bool.and_eq_true, ne_eq, decide_not, Bool.not_eq_true',
        decide_eq_false_iff_not, Option.isNone_iff_eq_none] at h
      obtain ⟨hne, hnone⟩ := h
      rw [if_neg hne, hnone]
      exact Or.inl rfl

/-- Same for the image pipeline: the placeholder replaces the raw text. -/
theorem imageParseFailed_err (rt : String) (h : imageParseFailed rt = true) :
    parse_image_response rt
      = mkErrRaw "AI image response contained invalid JSON structure" "See logs for raw text" ∨
    parse_image_response rt
      = mkErrRaw "No valid JSON found in AI image response" "See logs for raw text" := by
  unfold imageParseFailed textParseFailed at h
  unfold parse_image_response
  rcases hre : regexSearchJson rt.data with _ | ⟨g1, g2⟩
  · simp only [hre] at h ⊢
    rw [Option.isNone_iff_eq_none] at h
    rw [h]
    exact Or.inr rfl
  · simp only [hre] at h ⊢
    rcases hjs : pyOrStr g2 g1 with _ | js
    · rw [hjs] at h
      exact absurd h (by simp)
    · simp only [hjs] at h ⊢
      simp only [Bool.and_eq_true, ne_eq, decide_not, Bool.not_eq_true',
        decide_eq_false_iff_not, Option.isNone_iff_eq_none] at h
      obtain ⟨hne, hnone⟩ := h
      rw [if_neg hne, hnone]
      exact Or.inl rfl

/-- Evaluation: PDF extraction when PyMuPDF succeeds. -/
theorem extract_text_pdf_fitz_ok (t : String) (pl dx xl : Except String String)
    (ocr : String) :
    extract_text ⟨.ok t, pl, dx, xl, ocr⟩ ".pdf"
      = (.ok (pyStrip t),
         if (pyStrip t).length < 50
         then [ExtractEvent.fitzAttempt, ExtractEvent.imageBasedFlag]
         else [ExtractEvent.fitzAttempt]) := rfl

/-- Evaluation: PDF extraction when PyMuPDF raises and pdfplumber succeeds. -/
theorem extract_text_pdf_plumber_ok (e t : String) (dx xl : Except String String)
    (ocr : String) :
    extract_text ⟨.error e, .ok t, dx, xl, ocr⟩ ".pdf"
      = (.ok (pyStrip t),
         if (pyStrip t).length < 50
         then [ExtractEvent.fitzAttempt, ExtractEvent.plumberAttempt,
               ExtractEvent.imageBasedFlag]
         else [ExtractEvent.fitzAttempt, ExtractEvent.plumberAttempt]) := rfl

/-- Evaluation: PDF extraction when both libraries raise. -/
theorem extract_text_pdf_both_fail (e1 e2 : String) (dx xl : Except String String)
    (ocr : String) :
    extract_text ⟨.error e1, .error e2, dx, xl, ocr⟩ ".pdf"
      = (.ok "", [ExtractEvent.fitzAttempt, ExtractEvent.plumberAttempt,
                  ExtractEvent.imageBasedFlag]) := rfl

/-- The two reachable text-path malformed errors contain the substring
`"AI"`, so line 490 selects status 500 for them. -/
theorem ai_in_text_errors :
    containsSub "AI" "AI response could not be parsed as JSON" = true ∧
    containsSub "AI" "No valid JSON found in AI response" = true := ⟨rfl, rfl⟩

/-- Same for the image-path malformed errors. -/
theorem ai_in_image_errors :
    containsSub "AI" "AI image response contained invalid JSON structure" = true ∧
    containsSub "AI" "No valid JSON found in AI image response" = true := ⟨rfl, rfl⟩

/-- Routing an error record whose message contains `"AI"` yields it with
status 500. -/
theorem route_err_ai (e r : String) (h : containsSub "AI" e = true) :
    route_analysis_response (mkErrRaw e r) = some (500, mkErrRaw e r) := by
  unfold route_analysis_response mkErrRaw lookupField
  simp [h]

/-- A chat call on a session holding a truthy context sends the grounded
prompt built from that context, whatever the capability then does. -/
theorem chat_sends_context_prompt (ai : String → Except String GeminiResponse)
    (m t f : String) (hm : m ≠ "") (ht : t ≠ "") (hf : f ≠ "") :
    (chat_api ai (some m) ⟨some t, some f⟩).2.2
      = some (chat_context_prompt f (chat_truncated_context t) m) := by
  have hp : chat_prompt_of ⟨some t, some f⟩ m
      = chat_context_prompt f (chat_truncated_context t) m := by
    unfold chat_prompt_of
    dsimp only
    rw [if_pos (And.intro ht hf)]
  unfold chat_api
  dsimp only
  rw [if_neg hm, hp]
  split <;> try rfl
  split <;> try rfl
  split <;> rfl

/-- `chat_api` never modifies the session. -/
theorem chat_session_id (ai : String → Except String GeminiResponse)
    (message : Option String) (s : Session) :
    (chat_api ai message s).2.1 = s := by
  unfold chat_api
  rcases message with _ | m
  · rfl
  · dsimp only
    by_cases hm : m = ""
    · rw [if_pos hm]
    · rw [if_neg hm]
      split <;> try rfl
      split <;> try rfl
      split <;> rfl

/-- `upload_file` either leaves the session alone or clears it. -/
theorem upload_session_cases (hasFilePart : Bool) (filename : String)
    (save : Except String Unit) (s : Session) :
    (upload_file hasFilePart filename save s).2 = s
    ∨ (upload_file hasFilePart filename save s).2 = clearedSession := by
  unfold upload_file
  split
  · exact Or.inl rfl
  · split
    · exact Or.inl rfl
    · split
      · exact Or.inr rfl
      · exact Or.inl rfl

/-- `analyze_report` leaves the session alone, clears it, or stores the
non-empty text extracted from a non-image document with the resolved
filename. -/
theorem analyze_report_session_cases
    (fp : Option String) (fe : Bool) (fnp : Option String) (bn ext : String)
    (o : ExtractionOracle) (ir dc : Except String Unit)
    (ia : Except String ImageApiResult)
    (aiT : String → Except String GeminiResponse) (s : Session) :
    ((analyze_report fp fe fnp bn ext o ir dc ia aiT s).2 = s
      ∧ ((analyze_report fp fe fnp bn ext o ir dc ia aiT s).1 = none
         ∨ fp = none ∨ fp = some "" ∨ fe = false))
    ∨ (analyze_report fp fe fnp bn ext o ir dc ia aiT s).2 = clearedSession
    ∨ ∃ t, (analyze_report fp fe fnp bn ext o ir dc ia aiT s).2
          = ⟨some t, some (resolved_filename fnp bn)⟩
        ∧ (extract_text o ext).1 = Except.ok t ∧ t ≠ ""
        ∧ is_image_ext ext = false := by
  unfold analyze_report
  rcases fp with _ | p
  · exact Or.inl ⟨rfl, Or.inr (Or.inl rfl)⟩
  · dsimp only
    by_cases hp : p = "" ∨ ¬ fe
    · rw [if_pos hp]
      rcases hp with hp | hp
      · exact Or.inl ⟨rfl, Or.inr (Or.inr (Or.inl (by rw [hp])))⟩
      · refine Or.inl ⟨rfl, Or.inr (Or.inr (Or.inr ?_))⟩
        cases hfe : fe
        · rfl
        · exact absurd hfe hp
    · rw [if_neg hp]
      by_cases himg : is_image_ext ext = true
      · rw [if_pos himg]
        rcases ir with e | u
        · exact Or.inr (Or.inl rfl)
        · dsimp only
          split
          · exact Or.inr (Or.inl rfl)
          · exact Or.inl ⟨rfl, Or.inl rfl⟩
      · rw [if_neg himg]
        rcases hex : (extract_text o ext).1 with e | t
        · exact Or.inl ⟨rfl, Or.inl rfl⟩
        · dsimp only
          by_cases hemp : t = "" ∨ pyStrip t = ""
          · rw [if_pos hemp]
            exact Or.inr (Or.inl rfl)
          · rw [if_neg hemp]
            split
            · refine Or.inr (Or.inr ⟨t, rfl, rfl, fun h => hemp (Or.inl h), ?_⟩)
              cases hb : is_image_ext ext
              · rfl
              · exact absurd hb himg
            · exact Or.inl ⟨rfl, Or.inl rfl⟩

/-- The non-image path of `analyze_report` under its guards. -/
theorem analyze_report_text_path
    (p : String) (hpne : p ≠ "") (fnp : Option String) (bn ext : String)
    (o : ExtractionOracle) (ir dc : Except String Unit)
    (ia : Except String ImageApiResult)
    (aiT : String → Except String GeminiResponse) (s : Session) (t : String)
    (himg : is_image_ext ext = false)
    (hex : (extract_text o ext).1 = Except.ok t)
    (hne : ¬(t = "" ∨ pyStrip t = "")) :
    analyze_report (some p) true fnp bn ext o ir dc ia aiT s
      = (match route_analysis_response (analyze_text_with_gemini aiT t) with
         | some resp => (some resp, ⟨some t, some (resolved_filename fnp bn)⟩)
         | none => (none, s)) := by
  unfold analyze_report
  dsimp only
  rw [if_neg (by simp [hpne])]
  rw [if_neg (by rw [himg]; simp)]
  rw [hex]
  dsimp only
  rw [if_neg hne]

/-- The image path of `analyze_report` under its guards, with a readable
file. -/
theorem analyze_report_image_path
    (p : String) (hpne : p ≠ "") (fnp : Option String) (bn ext : String)
    (o : ExtractionOracle) (dc : Except String Unit)
    (ia : Except String ImageApiResult)
    (aiT : String → Except String GeminiResponse) (s : Session)
    (himg : is_image_ext ext = true) :
    analyze_report (some p) true fnp bn ext o (.ok ()) dc ia aiT s
      = (match route_analysis_response (analyze_image_with_gemini dc ia).1 with
         | some resp => (some resp, clearedSession)
         | none => (none, s)) := by
  unfold analyze_report
  dsimp only
  rw [if_neg (by simp [hpne])]
  rw [if_pos himg]

/-- Routing any error record built by the analyzers: present with status 500
or 400 depending on the substring test of line 490. -/
theorem route_err_any (e r : String) :
    route_analysis_response (mkErrRaw e r)
      = some ((if containsSub "AI" e || containsSub "Gemini" e then 500 else 400),
              mkErrRaw e r) := by
  unfold route_analysis_response mkErrRaw lookupField
  simp

/-! ## C3 -/

/-- C3: for every file and supported extension, `extract_text` never throws
to its caller: any internal failure — unsupported type, strategy failure, or
an uncaught exception of a strategy — results in `""` being returned rather
than an exception propagating. -/
theorem C3_extract_never_throws :
    (∀ (o : ExtractionOracle) (ext : String), ∃ s, (extract_text o ext).1 = Except.ok s)
    ∧ (∀ (o : ExtractionOracle) (ext : String),
        ext ≠ ".pdf" → ext ≠ ".docx" → ext ≠ ".xlsx" → is_image_ext ext = false →
        extract_text o ext = (.ok "", [.unsupportedType]))
    ∧ (∀ (o : ExtractionOracle) (e : String),
        o.docxResult = .error e → (extract_text o ".docx").1 = .ok "")
    ∧ (∀ (o : ExtractionOracle) (e : String),
        o.xlsxResult = .error e → (extract_text o ".xlsx").1 = .ok "")
    ∧ (∀ (o : ExtractionOracle) (e1 e2 : String),
        o.fitzResult = .error e1 → o.plumberResult = .error e2 →
        (extract_text o ".pdf").1 = .ok "") := by
  refine ⟨?_, ?_, ?_, ?_, ?_⟩
  · intro o ext
    unfold extract_text
    split
    · exact ⟨_, rfl⟩
    · split
      · split <;> exact ⟨_, rfl⟩
      · split
        · split <;> exact ⟨_, rfl⟩
        · split <;> exact ⟨_, rfl⟩
  · intro o ext h1 h2 h3 h4
    unfold extract_text
    simp [h1, h2, h3, h4]
  · intro o e h
    unfold extract_text
    simp [h]
  · intro o e h
    unfold extract_text
    simp [h]
  · intro o e1 e2 h1 h2
    unfold extract_text
    simp [h1, h2, pyStrip, pyStripList]

/-- Witness for C3 at concrete inputs: an unknown extension and an oracle
whose strategies all raise. -/
theorem C3_extract_never_throws_witness :
    (∃ s, (extract_text oracleAllFail ".txt").1 = Except.ok s)
    ∧ extract_text oracleAllFail ".txt" = (.ok "", [.unsupportedType])
    ∧ (extract_text oracleAllFail ".docx").1 = .ok ""
    ∧ (extract_text oracleAllFail ".xlsx").1 = .ok ""
    ∧ (extract_text oracleAllFail ".pdf").1 = .ok "" :=
  ⟨C3_extract_never_throws.1 oracleAllFail ".txt",
   C3_extract_never_throws.2.1 oracleAllFail ".txt"
     (by decide) (by decide) (by decide) (by decide),
   C3_extract_never_throws.2.2.1 oracleAllFail "docx boom" rfl,
   C3_extract_never_throws.2.2.2.1 oracleAllFail "xlsx boom" rfl,
   C3_extract_never_throws.2.2.2.2 oracleAllFail "fitz boom" "plumber boom" rfl rfl⟩

/-! ## C4 -/

/-- C4: PDF extraction tries PyMuPDF first (pdfplumber is not consulted when
it succeeds), falls back to pdfplumber exactly when PyMuPDF raises, returns
`""` when both raise, never invokes OCR, and a result shorter than 50
characters only raises the logged image-based flag without changing the
returned text. -/
theorem C4_pdf_fallback_chain (o : ExtractionOracle) :
    (∀ t, o.fitzResult = .ok t →
      (extract_text o ".pdf").1 = .ok (pyStrip t)
      ∧ ExtractEvent.plumberAttempt ∉ (extract_text o ".pdf").2)
    ∧ (∀ e t, o.fitzResult = .error e → o.plumberResult = .ok t →
      (extract_text o ".pdf").1 = .ok (pyStrip t)
      ∧ ExtractEvent.plumberAttempt ∈ (extract_text o ".pdf").2)
    ∧ (∀ e1 e2, o.fitzResult = .error e1 → o.plumberResult = .error e2 →
      (extract_text o ".pdf").1 = .ok "")
    ∧ ExtractEvent.ocrAttempt ∉ (extract_text o ".pdf").2
    ∧ (∀ s, (extract_text o ".pdf").1 = .ok s →
      (ExtractEvent.imageBasedFlag ∈ (extract_text o ".pdf").2 ↔ s.length < 50)) := by
  obtain ⟨fz, pl, dx, xl, ocr⟩ := o
  refine ⟨?_, ?_, ?_, ?_, ?_⟩
  · intro t h
    cases h
    rw [extract_text_pdf_fitz_ok]
    dsimp only
    refine ⟨rfl, ?_⟩
    split <;> decide
  · intro e t h1 h2
    cases h1
    cases h2
    rw [extract_text_pdf_plumber_ok]
    dsimp only
    refine ⟨rfl, ?_⟩
    split <;> decide
  · intro e1 e2 h1 h2
    cases h1
    cases h2
    rw [extract_text_pdf_both_fail]
  · rcases fz with e | t
    · rcases pl with e2 | t2
      · rw [extract_text_pdf_both_fail]
        decide
      · rw [extract_text_pdf_plumber_ok]
        dsimp only
        split <;> decide
    · rw [extract_text_pdf_fitz_ok]
      dsimp only
      split <;> decide
  · intro s hs
    rcases fz with e | t
    · rcases pl with e2 | t2
      · rw [extract_text_pdf_both_fail] at hs ⊢
        dsimp only at hs ⊢
        cases hs
        exact ⟨fun _ => by decide, fun _ => by decide⟩
      · rw [extract_text_pdf_plumber_ok] at hs ⊢
        dsimp only at hs ⊢
        cases hs
        constructor
        · intro hm
          by_contra hlt
          rw [if_neg hlt] at hm
          exact absurd hm (by decide)
        · intro hlt
          rw [if_pos hlt]
          decide
    · rw [extract_text_pdf_fitz_ok] at hs ⊢
      dsimp only at hs ⊢
      cases hs
      constructor
      · intro hm
        by_contra hlt
        rw [if_neg hlt] at hm
        exact absurd hm (by decide)
      · intro hlt
        rw [if_pos hlt]
        decide

/-- Witness for C4: concrete oracles exercising every hypothesis. -/
theorem C4_pdf_fallback_chain_witness :
    ((extract_text oracleFitzOk ".pdf").1 = .ok (pyStrip "Patient has mild hypertension.")
      ∧ ExtractEvent.plumberAttempt ∉ (extract_text oracleFitzOk ".pdf").2)
    ∧ ((extract_text oracleAllFail ".pdf").1 = .ok "")
    ∧ (ExtractEvent.imageBasedFlag ∈ (extract_text oracleFitzOk ".pdf").2
        ↔ ("Patient has mild hypertension." : String).length < 50) :=
  ⟨(C4_pdf_fallback_chain oracleFitzOk).1 "Patient has mild hypertension." rfl,
   (C4_pdf_fallback_chain oracleAllFail).2.2.1 "fitz boom" "plumber boom" rfl rfl,
   (C4_pdf_fallback_chain oracleFitzOk).2.2.2.2 "Patient has mild hypertension." rfl⟩

/-! ## C5 -/

/-- C5: inputs longer than the cap are truncated to exactly the cap before
reaching the AI capability: the analysis prompt embeds exactly the first
100,000 characters of the text, and the chat prompt embeds exactly the first
50,000 characters of the session document followed by the truncation
marker — never more.  The third conjunct ties the chat prompt actually sent
by `chat_api` to that construction. -/
theorem C5_truncation_caps :
    (∀ text : String, text.length > max_chars_analysis →
      gemini_text_prompt text
        = text_prompt_before ++ pySlice text max_chars_analysis ++ text_prompt_after
      ∧ (pySlice text max_chars_analysis).length = max_chars_analysis)
    ∧ (∀ dt : String, dt.length > max_context_chars →
      chat_truncated_context dt
        = pySlice dt max_context_chars ++ "\n... [Content Truncated]"
      ∧ (pySlice dt max_context_chars).length = max_context_chars)
    ∧ (∀ (ai : String → Except String GeminiResponse) (m t f : String),
      m ≠ "" → t ≠ "" → f ≠ "" →
      (chat_api ai (some m) ⟨some t, some f⟩).2.2
        = some (chat_context_prompt f (chat_truncated_context t) m)) := by
  refine ⟨?_, ?_, ?_⟩
  · intro text h
    refine ⟨by rw [gemini_text_prompt, if_pos h], ?_⟩
    show (text.data.take max_chars_analysis).length = max_chars_analysis
    rw [List.length_take]
    exact Nat.min_eq_left (Nat.le_of_lt h)
  · intro dt h
    refine ⟨by rw [chat_truncated_context, if_pos h], ?_⟩
    show (dt.data.take max_context_chars).length = max_context_chars
    rw [List.length_take]
    exact Nat.min_eq_left (Nat.le_of_lt h)
  · exact chat_sends_context_prompt

/-- Witness for C5: an input one character over each cap, and a concrete
chat call. -/
theorem C5_truncation_caps_witness :
    (gemini_text_prompt (String.mk (List.replicate 100001 'a'))
      = text_prompt_before
        ++ pySlice (String.mk (List.replicate 100001 'a')) max_chars_analysis
        ++ text_prompt_after
      ∧ (pySlice (String.mk (List.replicate 100001 'a')) max_chars_analysis).length
          = max_chars_analysis)
    ∧ (chat_truncated_context (String.mk (List.replicate 50001 'b'))
      = pySlice (String.mk (List.replicate 50001 'b')) max_context_chars
        ++ "\n... [Content Truncated]"
      ∧ (pySlice (String.mk (List.replicate 50001 'b')) max_context_chars).length
          = max_context_chars)
    ∧ (chat_api (fun _ => .error "down") (some "what was found?")
        ⟨some "Patient has mild hypertension.", some "report.pdf"⟩).2.2
      = some (chat_context_prompt "report.pdf"
          (chat_truncated_context "Patient has mild hypertension.") "what was found?") :=
  ⟨C5_truncation_caps.1 (String.mk (List.replicate 100001 'a'))
     (by show (List.replicate 100001 'a').length > max_chars_analysis
         rw [List.length_replicate]; norm_num [max_chars_analysis]),
   C5_truncation_caps.2.1 (String.mk (List.replicate 50001 'b'))
     (by show (List.replicate 50001 'b').length > max_context_chars
         rw [List.length_replicate]; norm_num [max_context_chars]),
   C5_truncation_caps.2.2 (fun _ => .error "down") "what was found?"
     "Patient has mild hypertension." "report.pdf"
     (by decide) (by decide) (by decide)⟩

/-! ## C6 -/

/-- C6: when the image bytes cannot be decoded, `analyze_image_with_gemini`
returns the `Failed to process image data` error record immediately and
`generate_content` is never invoked on that run (second component `false`),
for every behaviour of the AI capability. -/
theorem C6_image_decode_failure (img_err : String)
    (api : Except String ImageApiResult) :
    analyze_image_with_gemini (.error img_err) api
      = (mkErr ("Failed to process image data: " ++ img_err), false) := rfl

/-! ## C1 -/

theorem errRecord_mkErr (e : String) : isErrRecord (mkErr e) :=
  ⟨_, rfl, by simp [lookupField]⟩

theorem errRecord_mkErrRaw (e r : String) : isErrRecord (mkErrRaw e r) :=
  ⟨_, rfl, by simp [lookupField]⟩

theorem errRecord_obj_err (v : JValue) (rest : List (String × JValue)) :
    isErrRecord (.obj (("error", v) :: rest)) :=
  ⟨_, rfl, by simp [lookupField]⟩

/-- C1, counterexample to the claim as stated: after a reply was received,
the image analyzer's parse-failure error record does *not* preserve the
original raw reply — its `raw_text` field is the fixed placeholder
`"See logs for raw text"`.  (Additionally, a reply that is valid JSON but
not an object, such as `5`, is returned as-is: neither a mapping nor an
error record.) -/
theorem C1_counterexample :
    (analyze_image_with_gemini (.ok ()) (.ok (.candidateText "Sorry, I cannot help."))).1
      = mkErrRaw "No valid JSON found in AI image response" "See logs for raw text"
    ∧ ("See logs for raw text" : String) ≠ "Sorry, I cannot help."
    ∧ parse_text_response "5" = JValue.num 5 :=
  ⟨rfl, by decide, rfl⟩

/-- C1 as amended: both analyzers always return either a value that
`json.loads` successfully produced or an explicit error record; the *text*
analyzer's post-reply error records preserve the original reply in
`raw_text`, while the *image* analyzer's post-reply error records carry the
placeholder `"See logs for raw text"`; and a reply with no JSON at all
exhausts all three tiers, the text analyzer yielding
`{error: "No valid JSON found in AI response", raw_text: <the reply>}`. -/
theorem C1_amended_robust_parsing :
    (∀ (ai : String → Except String GeminiResponse) (text : String),
      (∃ src, json_loads src = some (analyze_text_with_gemini ai text))
      ∨ isErrRecord (analyze_text_with_gemini ai text))
    ∧ (∀ (decode : Except String Unit) (api : Except String ImageApiResult),
      (∃ src, json_loads src = some (analyze_image_with_gemini decode api).1)
      ∨ isErrRecord (analyze_image_with_gemini decode api).1)
    ∧ (∀ rt, (∃ src, json_loads src = some (parse_text_response rt))
      ∨ (∃ e, parse_text_response rt = mkErrRaw e rt))
    ∧ (∀ rt, (∃ src, json_loads src = some (parse_image_response rt))
      ∨ (∃ e, parse_image_response rt = mkErrRaw e "See logs for raw text"))
    ∧ parse_text_response "Sorry, I cannot help."
        = mkErrRaw "No valid JSON found in AI response" "Sorry, I cannot help." := by
  refine ⟨?_, ?_, parse_text_cases, parse_image_cases, rfl⟩
  · intro ai text
    unfold analyze_text_with_gemini
    cases ai (gemini_text_prompt text) with
    | error e => exact Or.inr (errRecord_mkErr _)
    | ok r =>
      cases r with
      | withText t =>
        dsimp only
        rcases parse_text_cases (pyStrip t) with ⟨src, hsrc⟩ | ⟨e, he⟩
        · exact Or.inl ⟨src, hsrc⟩
        · rw [he]
          exact Or.inr (errRecord_mkErrRaw _ _)
      | withCandidates fr pt sr =>
        dsimp only
        split
        · exact Or.inr (errRecord_obj_err _ _)
        · cases pt <;> exact Or.inr (errRecord_mkErr _)
      | noTextNoCandidates => exact Or.inr (errRecord_mkErr _)
  · intro decode api
    unfold analyze_image_with_gemini
    cases decode with
    | error e => exact Or.inr (errRecord_mkErr _)
    | ok u =>
      cases api with
      | error e => exact Or.inr (errRecord_mkErr _)
      | ok r =>
        cases r with
        | noCandidates fb =>
          cases fb with
          | none => exact Or.inr (errRecord_mkErr _)
          | some p => exact Or.inr (errRecord_obj_err _ _)
        | candidateText t =>
          dsimp only
          rcases parse_image_cases (pyStrip t) with ⟨src, hsrc⟩ | ⟨e, he⟩
          · exact Or.inl ⟨src, hsrc⟩
          · rw [he]
            exact Or.inr (errRecord_mkErrRaw _ _)
        | candidateNoText fr sr =>
          dsimp only
          split
          · exact Or.inr (errRecord_obj_err _ _)
          · exact Or.inr (errRecord_mkErr _)

/-! ## C2 -/

/-- The lazy bare-alternative scan stops at the first closing brace. -/
theorem lazyScanBrace_spec (body tail : List Char) (h : '}' ∉ body) :
    lazyScanBrace (body ++ '}' :: tail) = some (body ++ ['}']) := by
  induction body with
  | nil => simp [lazyScanBrace]
  | cons c rest ih =>
    rw [List.cons_append]
    unfold lazyScanBrace
    have hc : ¬(c = '}') := fun hh => h (hh ▸ List.mem_cons_self c rest)
    rw [if_neg hc, ih (fun hm => h (List.mem_cons_of_mem c hm))]
    rfl

/-- Whitespace step of `dropWhile` at a newline. -/
theorem dropWhile_newline (l : List Char) :
    List.dropWhile isWsPy ('\n' :: l) = List.dropWhile isWsPy l := by
  rw [List.dropWhile_cons, if_pos (show isWsPy '\n' = true from by decide)]

/-- `dropWhile` stops at an opening brace. -/
theorem dropWhile_lbrace (l : List Char) :
    List.dropWhile isWsPy ('{' :: l) = '{' :: l := by
  rw [List.dropWhile_cons, if_neg (show ¬(isWsPy '{' = true) from by decide)]

/-- The lazy fenced-alternative scan stops at the first closing brace that is
followed (after whitespace) by a closing fence. -/
theorem lazyScanFence_spec (body tail : List Char) (h : '}' ∉ body)
    (htail : fenceMarker.isPrefixOf (tail.dropWhile isWsPy) = true) :
    lazyScanFence (body ++ '}' :: tail) = some (body ++ ['}']) := by
  induction body with
  | nil =>
    rw [List.nil_append]
    unfold lazyScanFence
    rw [if_pos ⟨rfl, htail⟩]
    rfl
  | cons c rest ih =>
    rw [List.cons_append]
    unfold lazyScanFence
    have hc : ¬(c = '}' ∧ fenceMarker.isPrefixOf
        ((rest ++ '}' :: tail).dropWhile isWsPy) = true) :=
      fun hh => h (hh.1 ▸ List.mem_cons_self c rest)
    rw [if_neg hc, ih (fun hm => h (List.mem_cons_of_mem c hm))]
    rfl

/-- Evaluation of the fenced alternative on a well-shaped fenced block. -/
theorem matchFencedAt_eval (body tail : List Char) (hb : '}' ∉ body)
    (htail : fenceMarker.isPrefixOf (tail.dropWhile isWsPy) = true) :
    matchFencedAt (btick :: btick :: btick :: 'j' :: 's' :: 'o' :: 'n' :: '\n'
        :: ('{' :: (body ++ ('}' :: tail))))
      = some ('{' :: (body ++ ['}'])) := by
  unfold matchFencedAt
  rw [show fenceJsonMarker
      = btick :: btick :: btick :: 'j' :: 's' :: 'o' :: 'n' :: [] from by decide]
  simp only [dropPre, beq_self_eq_true, if_true]
  rw [dropWhile_newline, dropWhile_lbrace]
  dsimp only
  rw [if_pos rfl]
  rw [lazyScanFence_spec body tail hb htail]
  rfl

/-- The fenced alternative fails at a position holding an opening brace. -/
theorem matchFencedAt_unfenced (rest : List Char) :
    matchFencedAt ('{' :: rest) = none := by
  unfold matchFencedAt
  rw [show fenceJsonMarker
      = btick :: btick :: btick :: 'j' :: 's' :: 'o' :: 'n' :: [] from by decide]
  simp only [dropPre]
  rw [show (btick == '{') = false from by decide]
  rfl

/-- Evaluation of the bare alternative at an opening brace. -/
theorem matchBraceAt_eval (body tail : List Char) (hb : '}' ∉ body) :
    matchBraceAt ('{' :: (body ++ ('}' :: tail))) = some ('{' :: (body ++ ['}'])) := by
  unfold matchBraceAt
  dsimp only
  rw [if_pos rfl]
  rw [lazyScanBrace_spec body tail hb]
  rfl

/-- One step of the scan when the fenced alternative matches at the head. -/
theorem regexSearch_cons_fenced (c : Char) (rest g1 : List Char)
    (h : matchFencedAt (c :: rest) = some g1) :
    regexSearchJson (c :: rest) = some (some (String.mk g1), none) := by
  unfold regexSearchJson
  rw [h]

/-- `re.search` on a reply that is exactly a fenced block around a brace-flat
JSON object text captures the whole object in group 1. -/
theorem regexSearch_fenced (J : String) (body : List Char)
    (hJ : J.data = '{' :: (body ++ ['}'])) (hb : '}' ∉ body) :
    regexSearchJson ("```json\n" ++ J ++ "\n```").data = some (some J, none) := by
  have hmk : String.mk ('{' :: (body ++ ['}'])) = J := by
    rw [← hJ]
  have htail : fenceMarker.isPrefixOf
      (('\n' :: btick :: btick :: btick :: []).dropWhile isWsPy) = true := by decide
  have hdata : ("```json\n" ++ J ++ "\n```").data
      = btick :: btick :: btick :: 'j' :: 's' :: 'o' :: 'n' :: '\n'
        :: ('{' :: (body ++ ('}' :: ('\n' :: btick :: btick :: btick :: [])))) := by
    rw [data_append, data_append, hJ]
    rw [show ("```json\n" : String).data
        = btick :: btick :: btick :: 'j' :: 's' :: 'o' :: 'n' :: '\n' :: [] from by decide]
    rw [show ("\n```" : String).data = '\n' :: btick :: btick :: btick :: [] from by decide]
    simp [List.append_assoc]
  rw [hdata]
  rw [regexSearch_cons_fenced _ _ _
    (matchFencedAt_eval body ('\n' :: btick :: btick :: btick :: []) hb htail)]
  rw [hmk]

/-- `re.search` on the bare object text captures it whole in group 2. -/
theorem regexSearch_unfenced (J : String) (body : List Char)
    (hJ : J.data = '{' :: (body ++ ['}'])) (hb : '}' ∉ body) :
    regexSearchJson J.data = some (none, some J) := by
  have hmk : String.mk ('{' :: (body ++ ['}'])) = J := by
    rw [← hJ]
  rw [hJ]
  unfold regexSearchJson
  rw [matchFencedAt_unfenced]
  dsimp only
  rw [show (body ++ ['}'] : List Char) = body ++ ('}' :: []) from rfl]
  rw [matchBraceAt_eval body [] hb]
  dsimp only
  rw [show (body ++ ('}' :: []) : List Char) = body ++ ['}'] from rfl] at hmk ⊢
  rw [hmk]

/-- C2, counterexample to the claim as stated: on the nested JSON object
`{"a": {"b": 1}}` the fenced reply parses to the object while the unfenced
reply fails — the lazy `\x7b.*?\x7d` stops at the first closing brace,
capturing the unbalanced text `{"a": {"b": 1}`. -/
theorem C2_counterexample :
    parse_text_response ("```json\n\x7b\"a\": \x7b\"b\": 1\x7d\x7d\n```")
      = JValue.obj [("a", JValue.obj [("b", JValue.num 1)])]
    ∧ parse_text_response "\x7b\"a\": \x7b\"b\": 1\x7d\x7d"
      = mkErrRaw "AI response could not be parsed as JSON" "\x7b\"a\": \x7b\"b\": 1\x7d\x7d"
    ∧ JValue.obj [("a", JValue.obj [("b", JValue.num 1)])]
      ≠ mkErrRaw "AI response could not be parsed as JSON" "\x7b\"a\": \x7b\"b\": 1\x7d\x7d" :=
  ⟨rfl, rfl, by simp [mkErrRaw]⟩

/-- C2 as amended: for every JSON object text whose only closing brace is its
final character (no nested objects or braces in strings) and which
`json.loads` accepts, the response-parsing pipeline produces the same parsed
result on the fenced and on the unfenced reply — in both analyzers.  (The
counterexample shows the restriction is necessary.) -/
theorem C2_amended_fenced_unfenced (J : String) (body : List Char)
    (hJ : J.data = '{' :: (body ++ ['}'])) (hb : '}' ∉ body)
    (v : JValue) (hv : json_loads J = some v) :
    parse_text_response ("```json\n" ++ J ++ "\n```") = v
    ∧ parse_text_response J = v
    ∧ parse_image_response ("```json\n" ++ J ++ "\n```") = v
    ∧ parse_image_response J = v := by
  have hJne : ¬(J = "") := by
    intro h
    rw [h] at hJ
    exact absurd hJ (by simp)
  refine ⟨?_, ?_, ?_, ?_⟩
  · unfold parse_text_response
    rw [regexSearch_fenced J body hJ hb]
    dsimp only [pyOrStr]
    rw [if_neg hJne, hv]
  · unfold parse_text_response
    rw [regexSearch_unfenced J body hJ hb]
    dsimp only [pyOrStr]
    rw [if_neg hJne]
    dsimp only
    rw [if_neg hJne, hv]
  · unfold parse_image_response
    rw [regexSearch_fenced J body hJ hb]
    dsimp only [pyOrStr]
    rw [if_neg hJne, hv]
  · unfold parse_image_response
    rw [regexSearch_unfenced J body hJ hb]
    dsimp only [pyOrStr]
    rw [if_neg hJne]
    dsimp only
    rw [if_neg hJne, hv]

/-- Witness for C2 as amended, at the flat object `{"a": 1}`. -/
theorem C2_amended_fenced_unfenced_witness :
    parse_text_response ("```json\n\x7b\"a\": 1\x7d\n```") = JValue.obj [("a", JValue.num 1)]
    ∧ parse_text_response "\x7b\"a\": 1\x7d" = JValue.obj [("a", JValue.num 1)]
    ∧ parse_image_response ("```json\n\x7b\"a\": 1\x7d\n```") = JValue.obj [("a", JValue.num 1)]
    ∧ parse_image_response "\x7b\"a\": 1\x7d" = JValue.obj [("a", JValue.num 1)] :=
  C2_amended_fenced_unfenced "\x7b\"a\": 1\x7d" ("\"a\": 1".data)
    (by decide) (by decide) (JValue.obj [("a", JValue.num 1)]) rfl

/-! ## C7 -/

/-- C7: analyze calls on image documents never populate the session context
(the resulting session either has no stored text, or — only before the
existence check — is the unchanged incoming session), and in every reachable
session state, presence of stored text implies it is the non-empty output of
extracting a non-image document. -/
theorem C7_context_presence_invariant :
    (∀ fp fe fnp bn ext o ir dc ia aiT s, is_image_ext ext = true →
      ((analyze_report fp fe fnp bn ext o ir dc ia aiT s).2.last_analyzed_text = none
       ∨ (analyze_report fp fe fnp bn ext o ir dc ia aiT s).2 = s))
    ∧ (∀ s, ReachableSession s → ∀ t, s.last_analyzed_text = some t →
      t ≠ "" ∧ ∃ o ext, is_image_ext ext = false
        ∧ (extract_text o ext).1 = Except.ok t) := by
  constructor
  · intro fp fe fnp bn ext o ir dc ia aiT s himg
    rcases analyze_report_session_cases fp fe fnp bn ext o ir dc ia aiT s with
      ⟨h, _⟩ | h | ⟨t, h, _, _, hni⟩
    · exact Or.inr h
    · rw [h]
      exact Or.inl rfl
    · rw [himg] at hni
      exact absurd hni (by simp)
  · intro s hs
    induction hs with
    | init =>
      intro t ht
      exact absurd ht (by simp [clearedSession])
    | step_upload hp fn sv s' hprev ih =>
      rcases upload_session_cases hp fn sv s' with h | h <;> rw [h]
      · exact ih
      · intro t ht
        exact absurd ht (by simp [clearedSession])
    | step_analyze fp fe fnp bn ext o ir dc ia aiT s' hprev ih =>
      rcases analyze_report_session_cases fp fe fnp bn ext o ir dc ia aiT s' with
        ⟨h, _⟩ | h | ⟨t0, h, hex, hne0, hni⟩ <;> rw [h]
      · exact ih
      · intro t ht
        exact absurd ht (by simp [clearedSession])
      · intro t ht
        simp only [Option.some.injEq] at ht
        subst ht
        exact ⟨hne0, o, ext, hni, hex⟩
    | step_chat ai mes s' hprev ih =>
      rw [chat_session_id]
      exact ih

/-- Witness for C7: an image analyze ends with an empty context; the session
reached by analyzing a PDF with extractable text satisfies the invariant
with the extracted text as evidence. -/
theorem C7_context_presence_invariant_witness :
    ((analyze_report (some "u/x.png") true none "x.png" ".png" oracleFitzOk (.ok ()) (.ok ())
        (.ok (.candidateText "hi")) (fun _ => .error "na") staleSession).2.last_analyzed_text
          = none
      ∨ (analyze_report (some "u/x.png") true none "x.png" ".png" oracleFitzOk (.ok ()) (.ok ())
        (.ok (.candidateText "hi")) (fun _ => .error "na") staleSession).2 = staleSession)
    ∧ (("Patient has mild hypertension." : String) ≠ ""
      ∧ ∃ o ext, is_image_ext ext = false
        ∧ (extract_text o ext).1 = Except.ok "Patient has mild hypertension.") :=
  ⟨C7_context_presence_invariant.1 (some "u/x.png") true none "x.png" ".png" oracleFitzOk
     (.ok ()) (.ok ()) (.ok (.candidateText "hi")) (fun _ => .error "na") staleSession rfl,
   C7_context_presence_invariant.2 _
     (ReachableSession.step_analyze (some "u/r.pdf") true none "r.pdf" ".pdf" oracleFitzOk
       (.ok ()) (.ok ()) (.error "x") (fun _ => .error "ai down") clearedSession
       ReachableSession.init)
     "Patient has mild hypertension." rfl⟩

/-! ## C8 -/

/-- C8, counterexample to the claim as stated: an analyze call on a missing
file returns 400 *without* clearing the session (the pops on lines 451-452
run only after the existence check of line 439), so the previous document's
context stays visible and a subsequent chat call still grounds on it; an
upload with no file part likewise leaves the context untouched. -/
theorem C8_counterexample :
    (analyze_report (some "uploads/missing.pdf") false none "missing.pdf" ".pdf"
        oracleFitzOk (.ok ()) (.ok ()) (.error "unused") (fun _ => .error "unused")
        staleSession).2 = staleSession
    ∧ staleSession.last_analyzed_text = some "old report text"
    ∧ (upload_file false "r.pdf" (.ok ()) staleSession).2 = staleSession
    ∧ (chat_api (fun _ => .error "down") (some "what was found?")
        (analyze_report (some "uploads/missing.pdf") false none "missing.pdf" ".pdf"
          oracleFitzOk (.ok ()) (.ok ()) (.error "unused") (fun _ => .error "unused")
          staleSession).2).2.2
      = some (chat_context_prompt "old.pdf" (chat_truncated_context "old report text")
          "what was found?") :=
  ⟨rfl, rfl, rfl, rfl⟩

/-- C8 as amended: the context is cleared by every upload whose save
succeeds and by every analyze call that passes the file-existence check,
before any extraction or analysis; past that check, a completed (non-crash)
analyze never leaves the previous context — the session ends cleared or set
to the newly extracted document.  Upload and analyze calls that fail the
early validations (missing file part, empty filename, failed save, missing
or empty path) leave the previous context untouched. -/
theorem C8_amended_clearing :
    (∀ fn s, fn ≠ "" → (upload_file true fn (.ok ()) s).2 = clearedSession)
    ∧ (∀ fn sv s, (upload_file false fn sv s).2 = s)
    ∧ (∀ sv s, (upload_file true "" sv s).2 = s)
    ∧ (∀ fn e s, fn ≠ "" → (upload_file true fn (.error e) s).2 = s)
    ∧ (∀ fe fnp bn ext o ir dc ia aiT s,
        (analyze_report none fe fnp bn ext o ir dc ia aiT s).2 = s)
    ∧ (∀ p fnp bn ext o ir dc ia aiT s,
        (analyze_report (some p) false fnp bn ext o ir dc ia aiT s).2 = s)
    ∧ (∀ p fnp bn ext o ir dc ia aiT s, p ≠ "" →
        (analyze_report (some p) true fnp bn ext o ir dc ia aiT s).1 ≠ none →
        (analyze_report (some p) true fnp bn ext o ir dc ia aiT s).2 = clearedSession
        ∨ ∃ t, (analyze_report (some p) true fnp bn ext o ir dc ia aiT s).2
              = ⟨some t, some (resolved_filename fnp bn)⟩
            ∧ (extract_text o ext).1 = Except.ok t ∧ t ≠ "") := by
  refine ⟨?_, ?_, ?_, ?_, ?_, ?_, ?_⟩
  · intro fn s hfn
    unfold upload_file
    rw [if_neg (by simp), if_neg hfn]
  · intro fn sv s
    unfold upload_file
    rw [if_pos (by simp)]
  · intro sv s
    unfold upload_file
    rw [if_neg (by simp), if_pos rfl]
  · intro fn e s hfn
    unfold upload_file
    rw [if_neg (by simp), if_neg hfn]
  · intro fe fnp bn ext o ir dc ia aiT s
    rfl
  · intro p fnp bn ext o ir dc ia aiT s
    unfold analyze_report
    dsimp only
    rw [if_pos (Or.inr (by simp))]
  · intro p fnp bn ext o ir dc ia aiT s hpne hnn
    rcases analyze_report_session_cases (some p) true fnp bn ext o ir dc ia aiT s with
      ⟨h, hwhy⟩ | h | ⟨t, h, hex, hne, _⟩
    · rcases hwhy with hw | hw | hw | hw
      · exact absurd hw hnn
      · exact absurd hw (by simp)
      · exact absurd hw (by simp [hpne])
      · exact absurd hw (by simp)
    · exact Or.inl h
    · exact Or.inr ⟨t, h, hex, hne⟩

/-- Witness for C8 as amended: a successful upload clears the stale
context, and a post-validation analyze with a failing AI capability ends
with the new document stored, not the stale one. -/
theorem C8_amended_clearing_witness :
    (upload_file true "r.pdf" (.ok ()) staleSession).2 = clearedSession
    ∧ ((analyze_report (some "u/r.pdf") true none "r.pdf" ".pdf" oracleFitzOk (.ok ()) (.ok ())
          (.error "unused") (fun _ => .error "ai down") staleSession).2 = clearedSession
       ∨ ∃ t, (analyze_report (some "u/r.pdf") true none "r.pdf" ".pdf" oracleFitzOk (.ok ())
            (.ok ()) (.error "unused") (fun _ => .error "ai down") staleSession).2
              = ⟨some t, some (resolved_filename none "r.pdf")⟩
            ∧ (extract_text oracleFitzOk ".pdf").1 = Except.ok t ∧ t ≠ "") :=
  ⟨C8_amended_clearing.1 "r.pdf" staleSession (by decide),
   C8_amended_clearing.2.2.2.2.2.2 "u/r.pdf" none "r.pdf" ".pdf" oracleFitzOk (.ok ()) (.ok ())
     (.error "unused") (fun _ => .error "ai down") staleSession (by decide)
     (by intro h
         rw [show (analyze_report (some "u/r.pdf") true none "r.pdf" ".pdf" oracleFitzOk
               (.ok ()) (.ok ()) (.error "unused") (fun _ => .error "ai down")
               staleSession).1
             = some (500, mkErr "Unexpected AI text processing error: ai down") from rfl] at h
         exact Option.noConfusion h)⟩

/-! ## C9 -/

/-- C9, counterexample to the claim as stated: an image analyze whose AI
reply is unparsable after all tiers returns status 500, but the error record
does not preserve the raw reply — its `raw_text` is the placeholder. -/
theorem C9_counterexample :
    (analyze_report (some "u/x.png") true none "x.png" ".png" oracleFitzOk (.ok ()) (.ok ())
        (.ok (.candidateText "Sorry, I cannot help.")) (fun _ => .error "na") staleSession).1
      = some (500, mkErrRaw "No valid JSON found in AI image response" "See logs for raw text")
    ∧ ("See logs for raw text" : String) ≠ "Sorry, I cannot help." :=
  ⟨rfl, by decide⟩

/-- C9 as amended: whenever the AI capability replied but its JSON remained
unparsable after all fallback tiers, the HTTP response carries the error
record with status 500; for text-document analyses the record preserves the
raw reply in `raw_text`, while for image analyses it holds the fixed
placeholder `"See logs for raw text"`. -/
theorem C9_amended_malformed_500 :
    (∀ p fnp bn ext o ir dc ia s rt t,
      p ≠ "" → is_image_ext ext = false →
      (extract_text o ext).1 = Except.ok t → ¬(t = "" ∨ pyStrip t = "") →
      textParseFailed (pyStrip rt) = true →
      ∃ e, (analyze_report (some p) true fnp bn ext o ir dc ia
              (fun _ => .ok (.withText rt)) s).1
            = some (500, mkErrRaw e (pyStrip rt)))
    ∧ (∀ p fnp bn ext o aiT s rt,
      p ≠ "" → is_image_ext ext = true →
      imageParseFailed (pyStrip rt) = true →
      ∃ e, (analyze_report (some p) true fnp bn ext o (.ok ()) (.ok ())
              (.ok (.candidateText rt)) aiT s).1
            = some (500, mkErrRaw e "See logs for raw text")) := by
  constructor
  · intro p fnp bn ext o ir dc ia s rt t hpne himg hex hne hfail
    rw [analyze_report_text_path p hpne fnp bn ext o ir dc ia _ s t himg hex hne]
    rw [show analyze_text_with_gemini (fun _ => Except.ok (GeminiResponse.withText rt)) t
        = parse_text_response (pyStrip rt) from rfl]
    rcases textParseFailed_err (pyStrip rt) hfail with he | he <;> rw [he]
    · rw [route_err_ai _ _ ai_in_text_errors.1]
      exact ⟨_, rfl⟩
    · rw [route_err_ai _ _ ai_in_text_errors.2]
      exact ⟨_, rfl⟩
  · intro p fnp bn ext o aiT s rt hpne himg hfail
    rw [analyze_report_image_path p hpne fnp bn ext o (.ok ())
      (.ok (.candidateText rt)) aiT s himg]
    rw [show (analyze_image_with_gemini (Except.ok ())
          (Except.ok (ImageApiResult.candidateText rt))).1
        = parse_image_response (pyStrip rt) from rfl]
    rcases imageParseFailed_err (pyStrip rt) hfail with he | he <;> rw [he]
    · rw [route_err_ai _ _ ai_in_image_errors.1]
      exact ⟨_, rfl⟩
    · rw [route_err_ai _ _ ai_in_image_errors.2]
      exact ⟨_, rfl⟩

/-- Witness for C9 as amended: both paths at the no-JSON reply. -/
theorem C9_amended_malformed_500_witness :
    (∃ e, (analyze_report (some "u/r.pdf") true none "r.pdf" ".pdf" oracleFitzOk (.ok ())
            (.ok ()) (.error "unused") (fun _ => .ok (.withText "Sorry, I cannot help."))
            clearedSession).1
          = some (500, mkErrRaw e (pyStrip "Sorry, I cannot help.")))
    ∧ (∃ e, (analyze_report (some "u/x.png") true none "x.png" ".png" oracleFitzOk (.ok ())
            (.ok ()) (.ok (.candidateText "Sorry, I cannot help."))
            (fun _ => .error "na") clearedSession).1
          = some (500, mkErrRaw e "See logs for raw text")) :=
  ⟨C9_amended_malformed_500.1 "u/r.pdf" none "r.pdf" ".pdf" oracleFitzOk (.ok ()) (.ok ())
     (.error "unused") clearedSession "Sorry, I cannot help."
     "Patient has mild hypertension." (by decide) rfl rfl (by decide) rfl,
   C9_amended_malformed_500.2 "u/x.png" none "x.png" ".png" oracleFitzOk
     (fun _ => .error "na") clearedSession "Sorry, I cannot help."
     (by decide) rfl rfl⟩

/-! ## C10 -/

/-- C10: on a non-image analyze whose extraction yields non-empty text, the
session context is set to the extracted text and resolved filename before
the AI call (it does not depend on the AI's outcome), and when the AI
analysis returns an error record the context stays set while the response
carries the record — so a later chat call grounds on the new document
although the analyze response reported an error. -/
theorem C10_context_kept_on_ai_error
    (p : String) (fnp : Option String) (bn ext : String) (o : ExtractionOracle)
    (ir dc : Except String Unit) (ia : Except String ImageApiResult)
    (aiT : String → Except String GeminiResponse) (s : Session) (t e r : String)
    (hpne : p ≠ "") (himg : is_image_ext ext = false)
    (hex : (extract_text o ext).1 = Except.ok t)
    (hne : ¬(t = "" ∨ pyStrip t = ""))
    (herr : analyze_text_with_gemini aiT t = mkErrRaw e r)
    (hfn : resolved_filename fnp bn ≠ "") :
    (analyze_report (some p) true fnp bn ext o ir dc ia aiT s).2
      = ⟨some t, some (resolved_filename fnp bn)⟩
    ∧ (∃ st, (analyze_report (some p) true fnp bn ext o ir dc ia aiT s).1
        = some (st, mkErrRaw e r))
    ∧ (∀ (ai2 : String → Except String GeminiResponse) (m : String), m ≠ "" →
      (chat_api ai2 (some m)
          (analyze_report (some p) true fnp bn ext o ir dc ia aiT s).2).2.2
        = some (chat_context_prompt (resolved_filename fnp bn)
            (chat_truncated_context t) m)) := by
  rw [analyze_report_text_path p hpne fnp bn ext o ir dc ia aiT s t himg hex hne]
  rw [herr, route_err_any e r]
  refine ⟨rfl, ⟨_, rfl⟩, ?_⟩
  intro ai2 m hm
  exact chat_sends_context_prompt ai2 m t (resolved_filename fnp bn) hm
    (fun h => hne (Or.inl h)) hfn

/-- Witness for C10: the AI reply has no JSON, the analyze response is the
error record, and the context holds the new document for the next chat. -/
theorem C10_context_kept_on_ai_error_witness :
    (analyze_report (some "u/r.pdf") true none "r.pdf" ".pdf" oracleFitzOk (.ok ()) (.ok ())
        (.error "unused") (fun _ => .ok (.withText "Sorry, I cannot help.")) clearedSession).2
      = ⟨some "Patient has mild hypertension.", some (resolved_filename none "r.pdf")⟩
    ∧ (∃ st, (analyze_report (some "u/r.pdf") true none "r.pdf" ".pdf" oracleFitzOk (.ok ())
          (.ok ()) (.error "unused") (fun _ => .ok (.withText "Sorry, I cannot help."))
          clearedSession).1
        = some (st, mkErrRaw "No valid JSON found in AI response" "Sorry, I cannot help."))
    ∧ (∀ (ai2 : String → Except String GeminiResponse) (m : String), m ≠ "" →
      (chat_api ai2 (some m)
          (analyze_report (some "u/r.pdf") true none "r.pdf" ".pdf" oracleFitzOk (.ok ())
            (.ok ()) (.error "unused") (fun _ => .ok (.withText "Sorry, I cannot help."))
            clearedSession).2).2.2
        = some (chat_context_prompt (resolved_filename none "r.pdf")
            (chat_truncated_context "Patient has mild hypertension.") m)) :=
  C10_context_kept_on_ai_error "u/r.pdf" none "r.pdf" ".pdf" oracleFitzOk (.ok ()) (.ok ())
    (.error "unused") (fun _ => .ok (.withText "Sorry, I cannot help.")) clearedSession
    "Patient has mild hypertension." "No valid JSON found in AI response"
    "Sorry, I cannot help." (by decide) rfl rfl (by decide) rfl (by decide)

end Medinsight
